import Mathlib

/-!
Verification development for the Financial_Compliance_RAG repository.

Shallow embedding of the orchestration-relevant core:
  * `src/ingestion/chunker.py`           (SemanticChunker)
  * `src/ingestion/metadata_extractor.py` (MetadataExtractor)
  * `src/agents/router_agent.py`         (RouterAgent)
  * `src/agents/retrieval_agent.py`      (RetrievalAgent)
  * `src/tools/retrieval_tools.py`       (retrieve_documents / rerank_documents)
  * `src/tools/synthesis_tools.py`       (generate_response)
  * `src/graph/workflow.py`              (should_retrieve / should_continue / run_query)

Machine strings are modelled over ASCII: Python's `\s`, `[A-Z]`, `.lower()`
and `.strip()` are embedded with their ASCII behaviour, which is where all
keyword tables and boundary rules of the source live.  External
collaborators (the vector index and the generation backend) are parameters:
fallible ones return `Except String`.  Apostrophes have been elided from the
embedded string constants; no theorem depends on the elided characters.
-/

namespace FCRag

/-- ASCII characters matched by Python regex `\s` (also the characters
`str.strip` removes for ASCII text). -/
def pySpaceChar (c : Char) : Bool :=
  c = ' ' || c = '\t' || c = '\n' || c = '\x0d' || c = '\x0b' || c = '\x0c'

/-- Python `[A-Z]` character class. -/
def upperAZ (c : Char) : Bool := 'A' ≤ c && c ≤ 'Z'

/-- The sentence-terminator class `[.!?]` of the chunker's boundary rule. -/
def sentPunct (c : Char) : Bool := c = '.' || c = '!' || c = '?'

/-- Python `str.lower()` (ASCII behaviour). -/
def pyLower (s : String) : String := String.mk (s.data.map Char.toLower)

/-- Python `str.strip()` (ASCII whitespace behaviour). -/
def pyStrip (s : String) : String :=
  String.mk (((s.data.dropWhile pySpaceChar).reverse.dropWhile pySpaceChar).reverse)

/-- Contiguous-sublist test on character lists: Python's `needle in hay`. -/
def containsSub (needle : List Char) : List Char → Bool
  | [] => needle.isEmpty
  | c :: t => needle.isPrefixOf (c :: t) || containsSub needle t

/-- Python's substring operator `needle in hay` on strings. -/
def containsSubstr (needle hay : String) : Bool := containsSub needle.data hay.data

/-- Python `sep.join(parts)`. -/
def pyJoin (sep : String) : List String → String
  | [] => ""
  | [s] => s
  | s :: t => s ++ sep ++ pyJoin sep t

/-- Python truthiness of an optional string field (`if state.get(key):`):
`None` and the empty string are falsy. -/
def pyTruthyStr : Option String → Bool
  | none => false
  | some s => !(s = "")

/-! ## Chunker (`src/ingestion/chunker.py`)

`_split_sentences` uses `re.split(r'(?<=[.!?])\s+(?=[A-Z])', text)`.  A match
of that pattern is a nonempty maximal whitespace run immediately preceded by
one of `.!?` and immediately followed by an ASCII uppercase letter (any
shorter prefix of the run is followed by whitespace, which is not `[A-Z]`,
so backtracking cannot produce a partial-run match).  `splitAux` scans the
text once with that rule: `cur` is the current segment (reversed), `buf`,
when present, is a candidate whitespace run (reversed) that follows a
sentence terminator. -/
def splitAux : List Char → Option (List Char) → List Char → List (List Char)
  | cur, none, [] => [cur.reverse]
  | cur, some buf, [] => [(buf ++ cur).reverse]
  | cur, none, c :: rest =>
    if pySpaceChar c && (match cur with | p :: _ => sentPunct p | [] => false) then
      splitAux cur (some [c]) rest
    else
      splitAux (c :: cur) none rest
  | cur, some buf, c :: rest =>
    if pySpaceChar c then
      splitAux cur (some (c :: buf)) rest
    else if upperAZ c then
      cur.reverse :: splitAux [c] none rest
    else
      splitAux (c :: (buf ++ cur)) none rest

/-- The raw result of `re.split(sentence_pattern, text)` in
`SemanticChunker._split_sentences`, before stripping and filtering. -/
def rawSegments (text : String) : List String :=
  (splitAux [] none text.data).map String.mk

/-- `SemanticChunker._split_sentences`: split on the boundary rule, then
`[s.strip() for s in sentences if s.strip()]`. -/
def splitSentences (text : String) : List String :=
  ((rawSegments text).map pyStrip).filter (fun s => !(s = ""))

/-- Total character length of the sentences of a chunk
(the chunker's `current_length` bookkeeping). -/
def sumLens (c : List String) : Nat := (c.map String.length).sum

/-- The overlap-suffix selection of `_chunk_text`: iterate the closed chunk
in reverse, greedily keeping sentences while the accumulated length stays
within `chunk_overlap`, stopping at the first sentence that does not fit.
The argument list is the closed chunk reversed; the result is in that same
reversed order. -/
def seedRev (overlap : Nat) (acc : Nat) : List String → List String
  | [] => []
  | s :: rest =>
    if acc + s.length ≤ overlap then s :: seedRev overlap (acc + s.length) rest
    else []

/-- `overlap_sentences` of `_chunk_text`, in original sentence order. -/
def seedOf (overlap : Nat) (c : List String) : List String :=
  (seedRev overlap 0 c.reverse).reverse

/-- The sentence-packing loop of `_chunk_text`.  `cur` is `current_chunk`,
`curLen` is `current_length`; a chunk is closed when appending the next
sentence would push `current_length` past `size` and the chunk is nonempty,
and the next chunk is seeded with the overlap suffix.  The final nonempty
chunk is emitted after the loop. -/
def chunkLoop (size overlap : Nat) : List String → Nat → List String → List (List String)
  | cur, _, [] => if cur.isEmpty then [] else [cur]
  | cur, curLen, s :: rest =>
    if decide (curLen + s.length > size) && !cur.isEmpty then
      let seed := seedOf overlap cur
      cur :: chunkLoop size overlap (seed ++ [s]) (sumLens seed + s.length) rest
    else
      chunkLoop size overlap (cur ++ [s]) (curLen + s.length) rest

/-- `SemanticChunker._chunk_text`, kept at the granularity of sentence
lists (before the final `' '.join`). -/
def chunkSentenceLists (size overlap : Nat) (sentences : List String) : List (List String) :=
  if sentences.isEmpty then [] else chunkLoop size overlap [] 0 sentences

/-- Python `' '.join(chunk)`. -/
def joinSp (c : List String) : String := pyJoin " " c

/-- `SemanticChunker._chunk_text`: sentences of `text`, packed and joined. -/
def chunkText (size overlap : Nat) (text : String) : List String :=
  (chunkSentenceLists size overlap (splitSentences text)).map joinSp

/-- A document element as consumed by `SemanticChunker.chunk_elements`
(`element['text']`, `element['type']`, `element.get('is_table', False)`,
`element.get('metadata', {})`). -/
structure Element where
  text : String
  etype : String
  is_table : Bool
  metadata : List (String × String)
deriving DecidableEq, Repr, Inhabited

/-- A chunk record as produced by `SemanticChunker.chunk_elements`. -/
structure Chunk where
  text : String
  element_type : String
  is_table : Bool
  original_metadata : List (String × String)
deriving DecidableEq, Repr, Inhabited

/-- The chunks `chunk_elements` appends for one element: a table element
becomes exactly one chunk, any other element contributes the chunks of
`_chunk_text` on its text. -/
def elementChunks (size overlap : Nat) (e : Element) : List Chunk :=
  if e.is_table then
    [{ text := e.text, element_type := e.etype, is_table := true,
       original_metadata := e.metadata }]
  else
    (chunkText size overlap e.text).map fun t =>
      { text := t, element_type := e.etype, is_table := false,
        original_metadata := e.metadata }

/-- `SemanticChunker.chunk_elements`. -/
def chunkElements (size overlap : Nat) (elements : List Element) : List Chunk :=
  elements.flatMap (elementChunks size overlap)

/-! ## Metadata extractor (`src/ingestion/metadata_extractor.py`) -/

/-- `MetadataExtractor.compliance_keywords`, in the dictionary's insertion
order (Python dict iteration order). -/
def complianceKeywordTable : List (String × List String) :=
  [("AML", ["anti-money laundering", "aml", "suspicious activity", "customer due diligence"]),
   ("KYC", ["know your customer", "kyc", "customer identification", "identity verification"]),
   ("Basel_III", ["basel", "capital adequacy", "leverage ratio", "liquidity coverage"]),
   ("GDPR", ["gdpr", "data protection", "privacy", "personal data"]),
   ("SOX", ["sarbanes-oxley", "sox", "internal controls", "financial reporting"]),
   ("FCRA", ["fair credit reporting", "fcra", "credit report", "consumer reporting"]),
   ("TILA", ["truth in lending", "tila", "apr", "finance charge"]),
   ("RESPA", ["respa", "real estate settlement", "closing disclosure", "loan estimate"])]

/-- `MetadataExtractor._identify_compliance_categories`: walk the table in
order, including a category once if any of its keywords occurs in the
lower-cased text (the source's inner `break` = one inclusion per category),
defaulting to `["general"]` when nothing matched. -/
def identifyComplianceCategories (text : String) : List String :=
  let t := pyLower text
  let categories :=
    (complianceKeywordTable.filter
      (fun p => p.2.any (fun k => containsSubstr k t))).map Prod.fst
  if categories.isEmpty then ["general"] else categories

/-- `MetadataExtractor._identify_document_type`: ordered keyword rules over
the lower-cased filename and text, first match wins. -/
def identifyDocumentType (filename text : String) : String :=
  let fl := pyLower filename
  let tl := pyLower text
  if containsSubstr "regulation" fl || containsSubstr "cfr" tl then "regulation"
  else if containsSubstr "policy" fl || containsSubstr "policy" tl then "policy"
  else if containsSubstr "guideline" fl || containsSubstr "guidance" tl then "guideline"
  else if containsSubstr "audit" fl || containsSubstr "audit" tl then "audit_document"
  else if containsSubstr "compliance" fl || containsSubstr "compliance report" tl then "compliance_report"
  else "general"

/-- The metadata record built by `MetadataExtractor.extract_metadata`.
`page_number` and `mentioned_dates` are only present for some inputs, hence
optional. -/
structure EnrichedMetadata where
  filename : String
  chunk_index : Nat
  chunk_length : Nat
  timestamp : String
  doc_type : String
  compliance_categories : String
  section_name : String
  page_number : Option Nat
  mentioned_dates : Option String
deriving DecidableEq, Repr, Inhabited

/-- `MetadataExtractor.extract_metadata`.  The wall-clock timestamp and the
regex-driven helpers `_extract_section` and `_extract_dates` are inputs of
the embedding (`timestamp`, `sectionResult`, `datesResult`, `pageNumber`):
they feed fields no claim constrains, and abstracting them quantifies the
theorems over every value they could produce.  The category field is the
source's `','.join(categories) if categories else 'general'`. -/
def extractMetadata (text : String) (filename : String) (chunk_index : Nat)
    (timestamp : String) (sectionResult : String) (datesResult : List String)
    (pageNumber : Option Nat) : EnrichedMetadata :=
  let categories := identifyComplianceCategories text
  { filename := filename
    chunk_index := chunk_index
    chunk_length := text.length
    timestamp := timestamp
    doc_type := identifyDocumentType filename text
    compliance_categories :=
      if categories.isEmpty then "general" else pyJoin "," categories
    section_name := sectionResult
    page_number := pageNumber
    mentioned_dates :=
      if datesResult.isEmpty then none else some (pyJoin "," datesResult) }

/-! ## Agent state and workflow
(`src/agents/state.py`, `src/agents/router_agent.py`,
`src/agents/retrieval_agent.py`, `src/tools/*`, `src/graph/workflow.py`) -/

/-- The metadata dictionary carried by a retrieved document, read through
`dict.get` with defaults in `generate_response`; absent keys are `none`. -/
structure DocMeta where
  compliance_categories : Option String
  filename : Option String
  chunk_index : Option Nat
deriving DecidableEq, Repr, Inhabited

/-- A retrieved document (`{text, metadata, distance}` from the vector
index).  Distances only ever feed the rerank ordering; they are embedded as
integers, `none` for a missing `distance` key (`doc.get('distance', 999)`). -/
structure Doc where
  text : String
  metadata : DocMeta
  distance : Option Int
deriving DecidableEq, Repr, Inhabited

/-- A citation record built by `generate_response`. -/
structure Citation where
  index : Nat
  filename : String
  chunk_index : Nat
  compliance_categories : List String
deriving DecidableEq, Repr, Inhabited

/-- `AgentState` (`src/agents/state.py`). -/
structure AgentState where
  query : String
  query_type : Option String
  requires_retrieval : Bool
  retrieved_docs : List Doc
  agent_thoughts : List String
  iteration : Nat
  max_iterations : Nat
  response : Option String
  citations : List Citation
  error : Option String
deriving DecidableEq, Repr, Inhabited

/-- The environment-derived settings the loop reads
(`TOP_K_RETRIEVAL`, `TOP_K_FINAL`, `MAX_ITERATIONS`). -/
structure Config where
  top_k_retrieval : Nat
  top_k_final : Nat
  max_iterations : Nat
deriving DecidableEq, Repr, Inhabited

deriving instance DecidableEq for Except

/-- The retrieval collaborator (`ChromaManager.similarity_search` behind
`retrieve_documents`): takes the query and `top_k`, may fail. -/
def RetrieveFn : Type := String → Nat → Except String (List Doc)

/-- The generation backend (`ChatOllama` behind `generate_response`): takes
the system message and the user prompt, may fail. -/
def LlmFn : Type := String → String → Except String String

/-- `RouterAgent.__init__` keyword lists. -/
def greetingKeywords : List String := ["hello", "hi", "hey", "good morning", "good afternoon"]
def complianceKeywords : List String := ["regulation", "compliance", "requirement", "rule", "policy"]
def riskKeywords : List String := ["risk", "threat", "vulnerability", "exposure"]

/-- Whether a keyword list hits the lower-cased query
(`any(keyword in query for keyword in ...)`). -/
def keywordHit (kws : List String) (loweredQuery : String) : Bool :=
  kws.any (fun k => containsSubstr k loweredQuery)

/-- `RouterAgent.route`: classify the query and set
`query_type` / `requires_retrieval`, appending the trace entry. -/
def routeState (st : AgentState) : AgentState :=
  let q := pyLower st.query
  if keywordHit greetingKeywords q then
    { st with
        query_type := some "greeting"
        requires_retrieval := false
        agent_thoughts := st.agent_thoughts ++
          ["Query classified as greeting - no retrieval needed"] }
  else if keywordHit complianceKeywords q then
    { st with
        query_type := some "compliance"
        requires_retrieval := true
        agent_thoughts := st.agent_thoughts ++
          ["Query classified as compliance question - retrieval required"] }
  else if keywordHit riskKeywords q then
    { st with
        query_type := some "risk"
        requires_retrieval := true
        agent_thoughts := st.agent_thoughts ++
          ["Query classified as risk analysis - retrieval required"] }
  else
    { st with
        query_type := some "general"
        requires_retrieval := true
        agent_thoughts := st.agent_thoughts ++
          ["Query classified as general - retrieval required"] }

/-- Stable insert for the rerank sort: place `d` after every element whose
key is strictly smaller, before the first whose key is `≥` (extensionally
Python's stable `sorted`). -/
def sortedInsertBy (key : Doc → Int) (d : Doc) : List Doc → List Doc
  | [] => [d]
  | e :: rest =>
    if key e < key d then e :: sortedInsertBy key d rest else d :: e :: rest

/-- Stable sort by key, as Python `sorted(docs, key=...)`. -/
def pySortedBy (key : Doc → Int) (docs : List Doc) : List Doc :=
  docs.foldr (sortedInsertBy key) []

/-- `rerank_documents`: stable sort ascending by `doc.get('distance', 999)`
and keep the first `top_k`. -/
def rerankDocuments (documents : List Doc) (top_k : Nat) : List Doc :=
  (pySortedBy (fun d => d.distance.getD 999) documents).take top_k

/-- The fixed greeting text `generate_response` returns for
`query_type == 'greeting'` (apostrophes elided). -/
def greetingLongResponse : String :=
  "Hello! I am your Financial Compliance Assistant. I can help you with questions about regulations, compliance requirements, risk assessment, and financial policies. How can I assist you today?"

/-- The graceful empty-knowledge reply of `generate_response`
(apostrophes elided). -/
def noInfoResponse : String :=
  "I apologize, but I could not find relevant information in the knowledge base to answer your question. Please try rephrasing your query or ask about a different topic."

/-- Citation list built by `generate_response`: 1-based enumeration,
`dict.get` defaults, and the comma-joined category string split back into a
list (`''` splits to `[]` because the empty string is falsy). -/
def buildCitations (documents : List Doc) : List Citation :=
  (documents.enumFrom 1).map fun p =>
    let doc := p.2
    let catStr := doc.metadata.compliance_categories.getD ""
    { index := p.1
      filename := doc.metadata.filename.getD "unknown"
      chunk_index := doc.metadata.chunk_index.getD 0
      compliance_categories := if catStr = "" then [] else catStr.splitOn "," }

/-- The `[Document i]:\n{text}\n` context block, joined with newlines. -/
def buildContext (documents : List Doc) : String :=
  pyJoin "\n" ((documents.enumFrom 1).map fun p =>
    "[Document " ++ toString p.1 ++ "]:\n" ++ p.2.text ++ "\n")

/-- The per-category system messages of `generate_response`, abbreviated to
their identifying first sentences (their exact wording feeds only the
generation backend). -/
def systemMessageFor (query_type : Option String) : String :=
  if query_type = some "compliance" then
    "You are a Financial Compliance Expert. Answer the compliance-related question based ONLY on the provided documents."
  else if query_type = some "risk" then
    "You are a Risk Analysis Expert. Answer the risk-related question based ONLY on the provided documents."
  else
    "You are a Financial Compliance Assistant. Answer the question based ONLY on the provided documents."

/-- `generate_response` (`src/tools/synthesis_tools.py`): greeting and
empty-document branches are pure; otherwise the generation backend is
invoked once on the built prompt and its failures propagate. -/
def generateResponse (llm : LlmFn) (query : String) (documents : List Doc)
    (query_type : Option String) : Except String (String × List Citation) :=
  if query_type = some "greeting" then
    Except.ok (greetingLongResponse, [])
  else if documents.isEmpty then
    Except.ok (noInfoResponse, [])
  else
    let citations := buildCitations documents
    let context := buildContext documents
    match llm (systemMessageFor query_type)
        ("Context from documents:\n" ++ context ++ "\n\nUser Question: " ++ query) with
    | Except.error e => Except.error e
    | Except.ok r => Except.ok (r, citations)

/-- THINK phase of `RetrievalAgent.process`: append the iteration thought. -/
def thinkPhase (st : AgentState) : AgentState :=
  { st with agent_thoughts := st.agent_thoughts ++
      ["Iteration " ++ toString st.iteration ++ ": Analyzing query " ++ st.query] }

/-- ACT phase of `RetrievalAgent.process`: when no documents are held,
append the search thought and call the retrieval collaborator for
`TOP_K_RETRIEVAL` candidates; if any were returned, rerank to
`TOP_K_FINAL`; otherwise leave state as is.  (A collaborator failure
escapes as the raised exception, discarding the mutated state, exactly as
`app.invoke` does.) -/
def actPhase (cfg : Config) (retrieveFn : RetrieveFn) (st : AgentState) :
    Except String AgentState :=
  if st.retrieved_docs.isEmpty then
    match retrieveFn st.query cfg.top_k_retrieval with
    | Except.error e => Except.error e
    | Except.ok retrieved =>
      if !retrieved.isEmpty then
        Except.ok { st with
          agent_thoughts := st.agent_thoughts ++
            ["No documents retrieved yet - performing semantic search",
             "Retrieved " ++ toString retrieved.length ++ " documents - reranking"]
          retrieved_docs := rerankDocuments retrieved cfg.top_k_final }
      else
        Except.ok { st with
          agent_thoughts := st.agent_thoughts ++
            ["No documents retrieved yet - performing semantic search"]
          retrieved_docs := [] }
  else
    Except.ok st

/-- OBSERVE phase of `RetrievalAgent.process`: synthesize when enough
documents are held or the iteration budget is spent, else increment the
iteration counter. -/
def observePhase (cfg : Config) (llm : LlmFn) (st : AgentState) :
    Except String AgentState :=
  if cfg.top_k_final ≤ st.retrieved_docs.length then
    match generateResponse llm st.query st.retrieved_docs st.query_type with
    | Except.error e => Except.error e
    | Except.ok rc =>
      Except.ok { st with
        agent_thoughts := st.agent_thoughts ++
          ["Sufficient documents retrieved (" ++ toString st.retrieved_docs.length ++
            ") - generating response"]
        response := some rc.1
        citations := rc.2 }
  else if st.max_iterations ≤ st.iteration then
    match generateResponse llm st.query st.retrieved_docs st.query_type with
    | Except.error e => Except.error e
    | Except.ok rc =>
      Except.ok { st with
        agent_thoughts := st.agent_thoughts ++
          ["Max iterations reached - generating response with available docs"]
        response := some rc.1
        citations := rc.2 }
  else
    Except.ok { st with
      agent_thoughts := st.agent_thoughts ++ ["Insufficient documents - will iterate"]
      iteration := st.iteration + 1 }

/-- `RetrievalAgent.process`: Think, then Act, then Observe. -/
def retrievalProcess (cfg : Config) (retrieveFn : RetrieveFn) (llm : LlmFn)
    (st : AgentState) : Except String AgentState :=
  match actPhase cfg retrieveFn (thinkPhase st) with
  | Except.error e => Except.error e
  | Except.ok st' => observePhase cfg llm st'

/-- `should_continue` (`src/graph/workflow.py`): end on a truthy response
or an exhausted budget, else loop back to the retrieval node. -/
def shouldContinue (st : AgentState) : String :=
  if pyTruthyStr st.response then "end"
  else if st.max_iterations ≤ st.iteration then "end"
  else "retrieval"

/-- The fixed greeting response `should_retrieve` writes into state
(apostrophes elided). -/
def greetingShortResponse : String :=
  "Hello! I am your Financial Compliance Assistant. How can I help you today?"

/-- `should_retrieve` (`src/graph/workflow.py`): route to retrieval, or set
the fixed greeting response in state and end (the in-place mutation of the
conditional-edge function). -/
def shouldRetrieveEdge (st : AgentState) : String × AgentState :=
  if st.requires_retrieval then
    ("retrieval", st)
  else
    ("end", { st with response := some greetingShortResponse })

/-- The retrieval node loop of the compiled graph: run the node, then the
`should_continue` edge; `fuel` bounds the recursion and is instantiated at
`max_iterations + 1`, beyond any pass count the edge allows. -/
def loopSteps (cfg : Config) (retrieveFn : RetrieveFn) (llm : LlmFn) :
    Nat → AgentState → Except String AgentState
  | 0, st => Except.ok st
  | n + 1, st =>
    match retrievalProcess cfg retrieveFn llm st with
    | Except.error e => Except.error e
    | Except.ok st' =>
      if shouldContinue st' = "end" then Except.ok st'
      else loopSteps cfg retrieveFn llm n st'

/-- The initial state built by `run_query`. -/
def initState (query : String) (cfg : Config) : AgentState :=
  { query := query, query_type := none, requires_retrieval := true,
    retrieved_docs := [], agent_thoughts := [], iteration := 1,
    max_iterations := cfg.max_iterations, response := none,
    citations := [], error := none }

/-- `app.invoke(initial_state)`: router node, `should_retrieve` edge, and
the retrieval loop. -/
def workflowRun (cfg : Config) (retrieveFn : RetrieveFn) (llm : LlmFn)
    (query : String) : Except String AgentState :=
  if (shouldRetrieveEdge (routeState (initState query cfg))).1 = "retrieval" then
    loopSteps cfg retrieveFn llm (cfg.max_iterations + 1)
      (shouldRetrieveEdge (routeState (initState query cfg))).2
  else
    Except.ok (shouldRetrieveEdge (routeState (initState query cfg))).2

/-- The dictionary `run_query` returns.  The success dictionary has no
`error` key and the failure dictionary has no `query_type`,
`documents_retrieved`, `iterations` or `agent_thoughts` keys: absent keys
are `none`.  `response` is optional because the success path returns
`final_state.get('response', ...)` whose key is always present, possibly
holding `None`. -/
structure QueryResult where
  query : String
  response : Option String
  citations : List Citation
  query_type : Option String
  documents_retrieved : Option Nat
  iterations : Option Nat
  agent_thoughts : Option (List String)
  error : Option String
deriving DecidableEq, Repr, Inhabited

/-- `run_query` (`src/graph/workflow.py`): invoke the workflow; on success
package the final state, on any collaborator failure return the structured
error dictionary. -/
def runQuery (cfg : Config) (retrieveFn : RetrieveFn) (llm : LlmFn)
    (query : String) : QueryResult :=
  match workflowRun cfg retrieveFn llm query with
  | Except.ok final =>
    { query := query
      response := final.response
      citations := final.citations
      query_type := final.query_type
      documents_retrieved := some final.retrieved_docs.length
      iterations := some final.iteration
      agent_thoughts := some final.agent_thoughts
      error := none }
  | Except.error e =>
    { query := query
      response := some ("Error processing query: " ++ e)
      citations := []
      query_type := none
      documents_retrieved := none
      iterations := none
      agent_thoughts := none
      error := some e }

/-! ## Derived notions used by the statements -/

/-- Drop, from each chunk after the first, the overlap seed its predecessor
contributed (the seed is the deterministic function `seedOf` of the closed
predecessor chunk), and concatenate what remains. -/
def recombineGo (overlap : Nat) (p : List String) : List (List String) → List String
  | [] => []
  | c :: cs => c.drop (seedOf overlap p).length ++ recombineGo overlap c cs

/-- Re-concatenation of a chunk sequence with the overlap-duplicated
sentences at each chunk boundary dropped. -/
def recombine (overlap : Nat) : List (List String) → List String
  | [] => []
  | c :: cs => c ++ recombineGo overlap c cs

/-- The states of the retrieval-iteration loop: the state entering the loop
after routing (for any query, with `iteration = 1` and any
`maxIterations ≥ 1`), closed under successful passes of the retrieval node.
Every state the running loop ever holds, before or after any pass, is of
this shape. -/
inductive LoopStates (cfg : Config) (retrieveFn : RetrieveFn) (llm : LlmFn) :
    AgentState → Prop
  | init (q : String) (hmax : 1 ≤ cfg.max_iterations) :
      LoopStates cfg retrieveFn llm (routeState (initState q cfg))
  | step {st st' : AgentState} (h : LoopStates cfg retrieveFn llm st)
      (hp : retrievalProcess cfg retrieveFn llm st = Except.ok st') :
      LoopStates cfg retrieveFn llm st'

/-! ## Concrete scenario fixtures -/

/-- The default settings: `TOP_K_RETRIEVAL = 10`, `TOP_K_FINAL = 3`,
`MAX_ITERATIONS = 3`. -/
def cfg3 : Config := { top_k_retrieval := 10, top_k_final := 3, max_iterations := 3 }

/-- A generation backend that always answers. -/
def llm0 : LlmFn := fun _ _ => Except.ok "LLM ANSWER"

/-- A retrieval collaborator that returns zero documents on every call. -/
def emptyR : RetrieveFn := fun _ _ => Except.ok []

/-- A retrieval collaborator that always fails. -/
def failR : RetrieveFn := fun _ _ => Except.error "boom"

/-- A single concrete retrieved document. -/
def c3doc : Doc :=
  { text := "kyc text"
    metadata := { compliance_categories := some "KYC", filename := some "kyc.pdf",
                  chunk_index := some 0 }
    distance := some 1 }

/-- A retrieval collaborator that returns exactly one document (fewer than
`TOP_K_FINAL`) on every call. -/
def oneDocR : RetrieveFn := fun _ _ => Except.ok [c3doc]

/-- A compliance query (matches the `compliance` keyword set, no greeting
keyword). -/
def qC : String := "What is the compliance rule?"

/-- A query holding both a greeting keyword and a compliance keyword. -/
def qG : String := "hello, what regulation applies?"

/-- The state entering the retrieval loop for `qC` under `cfg3`. -/
def c3st0 : AgentState := routeState (initState qC cfg3)

/-- The state after the first retrieval pass for `qC` when retrieval yields
one document. -/
def c3st1 : AgentState :=
  ((retrievalProcess cfg3 oneDocR llm0 c3st0).toOption).getD default

/-- A 300-character sentence ending in a period. -/
def c5sentA : String := String.mk ('A' :: (List.replicate 298 'a' ++ ['.']))

/-- A 212-character sentence starting with an uppercase letter. -/
def c5sentB : String := String.mk ('B' :: List.replicate 211 'b')

/-- Two sentences of 300 and 212 characters separated by one space:
512 characters of sentence text, 513 characters once joined. -/
def c5text : String := c5sentA ++ " " ++ c5sentB

/-- A 5000-character table element. -/
def tableElem5000 : Element :=
  { text := String.mk (List.replicate 5000 'x'), etype := "Table",
    is_table := true, metadata := [] }

/-! ## Chunker lemmas -/

lemma sumLens_nil : sumLens [] = 0 := rfl

lemma sumLens_cons (s : String) (t : List String) :
    sumLens (s :: t) = s.length + sumLens t := by
  simp [sumLens]

lemma sumLens_append (a b : List String) :
    sumLens (a ++ b) = sumLens a + sumLens b := by
  simp [sumLens]

lemma sumLens_reverse (l : List String) : sumLens l.reverse = sumLens l := by
  simp [sumLens, List.map_reverse, List.sum_reverse]

lemma seedRev_sum_le (overlap : Nat) :
    ∀ (l : List String) (acc : Nat), acc ≤ overlap →
      acc + sumLens (seedRev overlap acc l) ≤ overlap := by
  intro l
  induction l with
  | nil => intro acc h; simpa [seedRev] using h
  | cons s rest ih =>
    intro acc h
    by_cases hle : acc + s.length ≤ overlap
    · have := ih (acc + s.length) hle
      simp only [seedRev, hle, if_true, sumLens_cons]
      omega
    · simpa [seedRev, hle] using h

lemma sumLens_seedOf (overlap : Nat) (c : List String) :
    sumLens (seedOf overlap c) ≤ overlap := by
  have h := seedRev_sum_le overlap c.reverse 0 (Nat.zero_le _)
  simpa [seedOf, sumLens_reverse] using h

lemma joinSp_length :
    ∀ (c : List String), c ≠ [] →
      (joinSp c).length = sumLens c + (c.length - 1) := by
  intro c
  induction c with
  | nil => intro h; exact absurd rfl h
  | cons s t ih =>
    intro _
    cases t with
    | nil => simp [joinSp, pyJoin, sumLens]
    | cons u v =>
      have ht : (u :: v) ≠ [] := by simp
      have hih := ih ht
      simp only [joinSp, pyJoin] at hih ⊢
      rw [String.length_append, String.length_append, hih]
      have hsp : (" " : String).length = 1 := rfl
      rw [hsp]
      simp only [sumLens_cons, List.length_cons]
      omega

/-- The packing-loop invariant behind the chunk-size bound: every emitted
chunk is nonempty, and its total sentence length is either within
`chunk_size` or within `chunk_overlap` of one of its own sentences (the
chunk is an overlap seed plus a single sentence). -/
lemma chunkLoop_inv (size overlap : Nat) :
    ∀ (rest cur : List String),
      (sumLens cur ≤ size ∨ ∃ s ∈ cur, sumLens cur ≤ overlap + s.length) →
      ∀ c ∈ chunkLoop size overlap cur (sumLens cur) rest,
        c ≠ [] ∧ (sumLens c ≤ size ∨ ∃ s ∈ c, sumLens c ≤ overlap + s.length) := by
  intro rest
  induction rest with
  | nil =>
    intro cur hcur c hc
    by_cases h : cur.isEmpty
    · simp [chunkLoop, h] at hc
    · simp only [chunkLoop, h, if_neg, Bool.false_eq_true, not_false_eq_true,
        if_false, List.mem_singleton] at hc
      subst hc
      exact ⟨by simpa [List.isEmpty_iff] using h, hcur⟩
  | cons s rest ih =>
    intro cur hcur c hc
    by_cases hguard : (decide (sumLens cur + s.length > size) && !cur.isEmpty) = true
    · simp only [chunkLoop, hguard, if_true, List.mem_cons] at hc
      rcases hc with rfl | hc
      · refine ⟨?_, hcur⟩
        intro hnil
        subst hnil
        simp at hguard
      · have hrw : sumLens (seedOf overlap cur) + s.length
            = sumLens (seedOf overlap cur ++ [s]) := by
          simp [sumLens_append, sumLens]
        rw [hrw] at hc
        refine ih (seedOf overlap cur ++ [s]) ?_ c hc
        right
        refine ⟨s, by simp, ?_⟩
        have hseed := sumLens_seedOf overlap cur
        simp only [sumLens_append, sumLens_cons, sumLens_nil]
        omega
    · simp only [chunkLoop, hguard, if_false, Bool.false_eq_true] at hc
      have hrw : sumLens cur + s.length = sumLens (cur ++ [s]) := by
        simp [sumLens_append, sumLens]
      rw [hrw] at hc
      refine ih (cur ++ [s]) ?_ c hc
      by_cases hnil : cur = []
      · subst hnil
        right
        refine ⟨s, by simp, ?_⟩
        simp [sumLens]
      · left
        have hle : sumLens cur + s.length ≤ size := by
          by_contra hgt
          apply hguard
          have hgt' : size < sumLens cur + s.length := Nat.lt_of_not_le hgt
          cases cur with
          | nil => exact absurd rfl hnil
          | cons a t => simp [hgt']
        rw [← hrw]
        exact hle

lemma chunkSentenceLists_inv (size overlap : Nat) (sents : List String) :
    ∀ c ∈ chunkSentenceLists size overlap sents,
      c ≠ [] ∧ (sumLens c ≤ size ∨ ∃ s ∈ c, sumLens c ≤ overlap + s.length) := by
  intro c hc
  unfold chunkSentenceLists at hc
  by_cases h : sents.isEmpty
  · simp [h] at hc
  · simp only [h, Bool.false_eq_true, if_false] at hc
    have h0 : (0 : Nat) = sumLens [] := rfl
    rw [h0] at hc
    exact chunkLoop_inv size overlap sents [] (Or.inl (by simp [sumLens])) c hc

/-! ## C5 / C6 / C7 / C10 -/

/-- C5 counterexample: with the default `chunkSize = 512` and
`chunkOverlap = 50`, the text made of a 300-character sentence and a
212-character sentence produces a single chunk of 513 characters — it
exceeds `chunkSize` although it consists of two sentences, neither of which
alone exceeds `chunkSize`.  This falsifies the claim that only a chunk
consisting of a single over-long sentence may exceed `chunkSize`. -/
theorem c5_chunk_size_cex :
    splitSentences c5text = [c5sentA, c5sentB] ∧
    c5sentA.length = 300 ∧ c5sentB.length = 212 ∧
    chunkSentenceLists 512 50 (splitSentences c5text) = [[c5sentA, c5sentB]] ∧
    chunkText 512 50 c5text = [c5sentA ++ " " ++ c5sentB] ∧
    (c5sentA ++ " " ++ c5sentB).length = 513 := by
  set_option maxRecDepth 100000 in
  refine ⟨by decide, by decide, by decide, by decide, by decide, by decide⟩

/-- C5 amended: every chunk the chunker emits is a nonempty sequence of
whole sentences whose joined text has exactly one space per sentence
boundary, and whose total sentence length is at most
`chunkSize + chunkOverlap` unless the chunk contains a single sentence that
alone exceeds `chunkSize` (that sentence is carried whole, never
truncated). -/
theorem c5_chunk_length_bound (size overlap : Nat) (text : String)
    (c : List String)
    (hc : c ∈ chunkSentenceLists size overlap (splitSentences text)) :
    c ≠ [] ∧
    (joinSp c).length = sumLens c + (c.length - 1) ∧
    (sumLens c ≤ size + overlap ∨ ∃ s ∈ c, size < s.length) := by
  obtain ⟨hne, hbound⟩ := chunkSentenceLists_inv size overlap (splitSentences text) c hc
  refine ⟨hne, joinSp_length c hne, ?_⟩
  rcases hbound with h | ⟨s, hs, h⟩
  · exact Or.inl (by omega)
  · by_cases hcase : sumLens c ≤ size + overlap
    · exact Or.inl hcase
    · exact Or.inr ⟨s, hs, by omega⟩

/-- C5 witness: the bound instantiated on a concrete two-sentence text. -/
theorem c5_chunk_length_bound_witness :
    (["Ab.", "Cd."] : List String) ≠ [] ∧
    (joinSp ["Ab.", "Cd."]).length = sumLens ["Ab.", "Cd."] + ((["Ab.", "Cd."] : List String).length - 1) ∧
    (sumLens ["Ab.", "Cd."] ≤ 512 + 50 ∨ ∃ s ∈ (["Ab.", "Cd."] : List String), 512 < s.length) :=
  c5_chunk_length_bound 512 50 "Ab. Cd." ["Ab.", "Cd."] (by decide)

/-- C6 counterexample: the text `"Hello world"` has no detected sentence
boundary (the raw regex split returns it whole), yet the chunker emits one
chunk for it, not zero. -/
theorem c6_no_boundary_cex :
    rawSegments "Hello world" = ["Hello world"] ∧
    chunkText 512 50 "Hello world" = ["Hello world"] := by
  exact ⟨by decide, by decide⟩

/-- C6 amended: an element whose text has no detected sentence boundary
(the raw split returns the whole text) yields zero chunks exactly when the
text strips to empty, and otherwise exactly one chunk holding the stripped
text; empty input always yields the empty sequence (the chunker is a total
function, so no exception is possible). -/
theorem c6_no_boundary_amended (size overlap : Nat) (text : String)
    (h : rawSegments text = [text]) :
    chunkText size overlap text =
      (if pyStrip text = "" then [] else [pyStrip text]) ∧
    chunkText size overlap "" = [] := by
  constructor
  · have hsent : splitSentences text =
        if pyStrip text = "" then [] else [pyStrip text] := by
      unfold splitSentences
      rw [h]
      by_cases hs : pyStrip text = "" <;> simp [hs]
    unfold chunkText
    rw [hsent]
    by_cases hs : pyStrip text = ""
    · simp [hs, chunkSentenceLists]
    · simp only [hs, if_false]
      have : chunkSentenceLists size overlap [pyStrip text] = [[pyStrip text]] := by
        unfold chunkSentenceLists chunkLoop
        simp [chunkLoop]
      rw [this]
      simp [joinSp, pyJoin, hs]
  · rfl

/-- C6 witness: the amended statement instantiated on `"Hello world"`. -/
theorem c6_no_boundary_amended_witness :
    chunkText 512 50 "Hello world" =
      (if pyStrip "Hello world" = "" then [] else [pyStrip "Hello world"]) ∧
    chunkText 512 50 "" = [] :=
  c6_no_boundary_amended 512 50 "Hello world" (by decide)

/-- C7: a table element contributes exactly one chunk, carrying its text
unmodified with `is_table = true`, wherever it sits in the element list and
regardless of `chunkSize` and `chunkOverlap`. -/
theorem c7_table_single_chunk (size overlap : Nat) (e : Element)
    (pre post : List Element) (h : e.is_table = true) :
    chunkElements size overlap (pre ++ e :: post) =
      chunkElements size overlap pre ++
        { text := e.text, element_type := e.etype, is_table := true,
          original_metadata := e.metadata } :: chunkElements size overlap post := by
  unfold chunkElements
  rw [List.flatMap_append, List.flatMap_cons]
  simp [elementChunks, h]

/-- C7 witness: a 5000-character table yields exactly one chunk at the
default `chunkSize = 512`. -/
theorem c7_table_single_chunk_witness :
    chunkElements 512 50 ([] ++ tableElem5000 :: []) =
      chunkElements 512 50 [] ++
        { text := tableElem5000.text, element_type := tableElem5000.etype,
          is_table := true,
          original_metadata := tableElem5000.metadata } :: chunkElements 512 50 [] :=
  c7_table_single_chunk 512 50 tableElem5000 [] [] rfl

/-- The inner recombination lemma: once a chunk `p` has been closed, the
loop continues from `seedOf overlap p ++ news`, and dropping each
successor's seed recovers exactly the sentences still to be placed. -/
lemma recombineGo_chunkLoop (size overlap : Nat) :
    ∀ (rest : List String) (p news : List String), news ≠ [] →
      recombineGo overlap p
        (chunkLoop size overlap (seedOf overlap p ++ news)
          (sumLens (seedOf overlap p ++ news)) rest)
        = news ++ rest := by
  intro rest
  induction rest with
  | nil =>
    intro p news hne
    have hcur : (seedOf overlap p ++ news).isEmpty = false := by
      cases news with
      | nil => exact absurd rfl hne
      | cons a t => simp [List.isEmpty_iff]
    simp only [chunkLoop, hcur, Bool.false_eq_true, if_false, recombineGo]
    rw [List.drop_left]
  | cons s rest ih =>
    intro p news hne
    set cur := seedOf overlap p ++ news with hcurdef
    by_cases hguard : (decide (sumLens cur + s.length > size) && !cur.isEmpty) = true
    · simp only [chunkLoop, hguard, if_true, recombineGo]
      have hstep : sumLens (seedOf overlap cur) + s.length
          = sumLens (seedOf overlap cur ++ [s]) := by
        simp [sumLens_append, sumLens]
      rw [hstep, ih cur [s] (by simp)]
      rw [hcurdef, List.drop_left]
      simp
    · simp only [chunkLoop, hguard, if_false, Bool.false_eq_true]
      have hassoc : cur ++ [s] = seedOf overlap p ++ (news ++ [s]) := by
        rw [hcurdef, List.append_assoc]
      have hlen : sumLens cur + s.length = sumLens (seedOf overlap p ++ (news ++ [s])) := by
        rw [← hassoc]
        simp [sumLens_append, sumLens]
      rw [hassoc, hlen, ih p (news ++ [s]) (by simp)]
      simp

/-- The outer recombination lemma: from a nonempty current chunk, the loop
emits chunk sequences whose recombination is the current chunk followed by
the remaining sentences. -/
lemma recombine_chunkLoop (size overlap : Nat) :
    ∀ (rest cur : List String), cur ≠ [] →
      recombine overlap (chunkLoop size overlap cur (sumLens cur) rest)
        = cur ++ rest := by
  intro rest
  induction rest with
  | nil =>
    intro cur hne
    have hcur : cur.isEmpty = false := by
      cases cur with
      | nil => exact absurd rfl hne
      | cons a t => simp [List.isEmpty_iff]
    simp [chunkLoop, hcur, recombine, recombineGo]
  | cons s rest ih =>
    intro cur hne
    by_cases hguard : (decide (sumLens cur + s.length > size) && !cur.isEmpty) = true
    · simp only [chunkLoop, hguard, if_true, recombine]
      have hstep : sumLens (seedOf overlap cur) + s.length
          = sumLens (seedOf overlap cur ++ [s]) := by
        simp [sumLens_append, sumLens]
      rw [hstep, recombineGo_chunkLoop size overlap rest cur [s] (by simp)]
      simp
    · simp only [chunkLoop, hguard, if_false, Bool.false_eq_true]
      have hlen : sumLens cur + s.length = sumLens (cur ++ [s]) := by
        simp [sumLens_append, sumLens]
      rw [hlen, ih (cur ++ [s]) (by simp)]
      simp

/-- C10: dropping, at each chunk boundary, the overlap sentences the closed
chunk seeded into its successor and concatenating what remains reproduces
exactly the original sentence sequence, for every text and configuration. -/
theorem c10_recombine_reproduces_sentences (size overlap : Nat) (text : String) :
    recombine overlap (chunkSentenceLists size overlap (splitSentences text))
      = splitSentences text := by
  unfold chunkSentenceLists
  cases hs : splitSentences text with
  | nil => simp [recombine]
  | cons s ss =>
    simp only [List.isEmpty_cons, Bool.false_eq_true, if_false]
    have hfirst : chunkLoop size overlap [] 0 (s :: ss)
        = chunkLoop size overlap [s] (sumLens [s]) ss := by
      simp [chunkLoop, sumLens]
    rw [hfirst, recombine_chunkLoop size overlap ss [s] (by simp)]
    simp

/-! ## Metadata extractor: C9 -/

lemma pyJoin_comma_ne_empty (c : String) (t : List String) (hc : c ≠ "") :
    pyJoin "," (c :: t) ≠ "" := by
  have hcpos : 0 < c.length := by
    cases c with
    | mk data =>
      cases data with
      | nil => exact absurd rfl hc
      | cons a l => simp [String.length]
  cases t with
  | nil => simpa [pyJoin] using hc
  | cons u v =>
    have hpos : 0 < (pyJoin "," (c :: u :: v)).length := by
      simp only [pyJoin, String.length_append]
      omega
    intro h
    rw [h] at hpos
    simp at hpos

/-- The shape of `_identify_compliance_categories` output: always a
nonempty list headed by a nonempty category code, and exactly
`["general"]` when no keyword of the table occurs in the lower-cased
text. -/
lemma identifyComplianceCategories_spec (text : String) :
    (∃ c t, identifyComplianceCategories text = c :: t ∧ c ≠ "") ∧
    (complianceKeywordTable.all
        (fun p => p.2.all (fun k => !containsSubstr k (pyLower text))) = true →
      identifyComplianceCategories text = ["general"]) := by
  have heq : identifyComplianceCategories text =
      (if ((complianceKeywordTable.filter
            (fun p => p.2.any (fun k => containsSubstr k (pyLower text)))).map
            Prod.fst).isEmpty
       then ["general"]
       else (complianceKeywordTable.filter
            (fun p => p.2.any (fun k => containsSubstr k (pyLower text)))).map
            Prod.fst) := rfl
  constructor
  · rw [heq]
    cases hl : (complianceKeywordTable.filter
        (fun p => p.2.any (fun k => containsSubstr k (pyLower text)))).map Prod.fst with
    | nil => exact ⟨"general", [], by simp, by decide⟩
    | cons c t =>
      refine ⟨c, t, by simp, ?_⟩
      have hmem : c ∈ complianceKeywordTable.map Prod.fst := by
        have hc : c ∈ (complianceKeywordTable.filter
            (fun p => p.2.any (fun k => containsSubstr k (pyLower text)))).map Prod.fst := by
          rw [hl]; simp
        rcases List.mem_map.mp hc with ⟨p, hp, hpe⟩
        exact List.mem_map.mpr ⟨p, (List.mem_filter.mp hp).1, hpe⟩
      have hall : ∀ x ∈ complianceKeywordTable.map Prod.fst, x ≠ "" := by decide
      exact hall c hmem
  · intro hnone
    rw [heq]
    have hfil : complianceKeywordTable.filter
        (fun p => p.2.any (fun k => containsSubstr k (pyLower text))) = [] := by
      rw [List.filter_eq_nil_iff]
      intro p hp
      have hpall := (List.all_eq_true.mp hnone) p hp
      intro hany
      rcases List.any_eq_true.mp hany with ⟨k, hk, hksub⟩
      have := (List.all_eq_true.mp hpall) k hk
      simp [hksub] at this
    rw [hfil]
    simp

/-- C9: the metadata record of the extractor always carries a non-empty
`compliance_categories` value, and it is exactly `"general"` when no
keyword of the fixed category table occurs in the lower-cased text. -/
theorem c9_compliance_categories_nonempty (text filename : String)
    (chunk_index : Nat) (timestamp sectionResult : String)
    (datesResult : List String) (pageNumber : Option Nat) :
    (extractMetadata text filename chunk_index timestamp sectionResult
        datesResult pageNumber).compliance_categories ≠ "" ∧
    (complianceKeywordTable.all
        (fun p => p.2.all (fun k => !containsSubstr k (pyLower text))) = true →
      (extractMetadata text filename chunk_index timestamp sectionResult
          datesResult pageNumber).compliance_categories = "general") := by
  have hfield : (extractMetadata text filename chunk_index timestamp sectionResult
      datesResult pageNumber).compliance_categories =
      (if (identifyComplianceCategories text).isEmpty then "general"
       else pyJoin "," (identifyComplianceCategories text)) := rfl
  obtain ⟨⟨c, t, hct, hcne⟩, hgen⟩ := identifyComplianceCategories_spec text
  constructor
  · rw [hfield, hct]
    simpa using pyJoin_comma_ne_empty c t hcne
  · intro hnone
    rw [hfield, hgen hnone]
    simp [pyJoin]

/-- C9 witness: a keyword-free text defaults to `"general"`. -/
theorem c9_compliance_categories_nonempty_witness :
    (extractMetadata "hello world" "notes.txt" 0 "ts" "unknown" []
        none).compliance_categories ≠ "" ∧
    (extractMetadata "hello world" "notes.txt" 0 "ts" "unknown" []
        none).compliance_categories = "general" :=
  ⟨(c9_compliance_categories_nonempty "hello world" "notes.txt" 0 "ts" "unknown" [] none).1,
   (c9_compliance_categories_nonempty "hello world" "notes.txt" 0 "ts" "unknown" [] none).2
     (by decide)⟩

/-! ## Workflow lemmas -/

lemma routeState_core (st : AgentState) :
    (routeState st).iteration = st.iteration ∧
    (routeState st).max_iterations = st.max_iterations ∧
    (routeState st).retrieved_docs = st.retrieved_docs ∧
    (routeState st).response = st.response := by
  unfold routeState
  by_cases h1 : keywordHit greetingKeywords (pyLower st.query) = true <;>
  by_cases h2 : keywordHit complianceKeywords (pyLower st.query) = true <;>
  by_cases h3 : keywordHit riskKeywords (pyLower st.query) = true <;>
  simp [h1, h2, h3]

lemma actPhase_fields {cfg : Config} {f : RetrieveFn} {st st' : AgentState}
    (h : actPhase cfg f st = Except.ok st') :
    st'.iteration = st.iteration ∧ st'.max_iterations = st.max_iterations ∧
    st'.response = st.response ∧ st'.query = st.query ∧
    st'.query_type = st.query_type ∧ st'.citations = st.citations := by
  unfold actPhase at h
  split at h
  · split at h
    · cases h
    · split at h
      · cases h
        simp
      · cases h
        simp
  · cases h
    simp

lemma observePhase_preserved {cfg : Config} {llm : LlmFn} {st st' : AgentState}
    (h : observePhase cfg llm st = Except.ok st') :
    st'.retrieved_docs = st.retrieved_docs ∧
    st'.max_iterations = st.max_iterations ∧
    st'.query = st.query ∧ st'.query_type = st.query_type := by
  unfold observePhase at h
  split at h
  · split at h
    · cases h
    · cases h
      simp
  · split at h
    · split at h
      · cases h
      · cases h
        simp
    · cases h
      simp

lemma observePhase_iteration_le {cfg : Config} {llm : LlmFn} {st st' : AgentState}
    (h : observePhase cfg llm st = Except.ok st')
    (hle : st.iteration ≤ st.max_iterations) :
    st'.iteration ≤ st'.max_iterations := by
  unfold observePhase at h
  split at h
  · split at h
    · cases h
    · cases h
      simpa using hle
  · rename_i hbudget
    split at h
    · split at h
      · cases h
      · cases h
        simpa using hle
    · rename_i hnot
      cases h
      simp only []
      have : st.iteration < st.max_iterations := by omega
      simpa using this

lemma observePhase_insufficient {cfg : Config} {llm : LlmFn} {st st' : AgentState}
    (h : observePhase cfg llm st = Except.ok st')
    (hdocs : st.retrieved_docs.length < cfg.top_k_final)
    (hit : st.iteration < st.max_iterations) :
    st' = { st with
      agent_thoughts := st.agent_thoughts ++ ["Insufficient documents - will iterate"]
      iteration := st.iteration + 1 } := by
  unfold observePhase at h
  have h1 : ¬ (cfg.top_k_final ≤ st.retrieved_docs.length) := by omega
  have h2 : ¬ (st.max_iterations ≤ st.iteration) := by omega
  rw [if_neg h1, if_neg h2] at h
  cases h
  rfl

lemma retrievalProcess_skips_retrieval {cfg : Config} {llm : LlmFn}
    {st : AgentState} (h : st.retrieved_docs ≠ []) (f g : RetrieveFn) :
    retrievalProcess cfg g llm st = retrievalProcess cfg f llm st := by
  unfold retrievalProcess actPhase
  have hne : (thinkPhase st).retrieved_docs.isEmpty = false := by
    show st.retrieved_docs.isEmpty = false
    cases hd : st.retrieved_docs with
    | nil => exact absurd hd h
    | cons a t => simp
  rw [hne]
  simp

lemma retrievalProcess_iteration_le {cfg : Config} {f : RetrieveFn} {llm : LlmFn}
    {st st' : AgentState}
    (hp : retrievalProcess cfg f llm st = Except.ok st')
    (h : st.iteration ≤ st.max_iterations) : st'.iteration ≤ st'.max_iterations := by
  unfold retrievalProcess at hp
  cases ha : actPhase cfg f (thinkPhase st) with
  | error e => rw [ha] at hp; cases hp
  | ok stM =>
    rw [ha] at hp
    obtain ⟨hIt, hMax, -, -, -, -⟩ := actPhase_fields ha
    refine observePhase_iteration_le hp ?_
    rw [hIt, hMax]
    exact h

/-! ## C1 / C2 / C3 / C4 / C8 -/

/-- C1 evaluation at the failing input: with the default
`MAX_ITERATIONS = 3` and a retrieval collaborator that returns zero
documents on every call, the workflow terminates without error after the
iteration counter reaches 3, but the returned response is `none` — the
synthesis step was never invoked with the empty document list and no
graceful no-relevant-information message is produced.  (The agent's own
`Max iterations reached - generating response with available docs` branch
is unreachable for `MAX_ITERATIONS ≥ 2` because `should_continue`
terminates the loop first.) -/
theorem c1_zero_docs_budget_eval :
    cfg3.max_iterations = 3 ∧
    (runQuery cfg3 emptyR llm0 qC).response = none ∧
    (runQuery cfg3 emptyR llm0 qC).error = none ∧
    (runQuery cfg3 emptyR llm0 qC).iterations = some 3 ∧
    (runQuery cfg3 emptyR llm0 qC).documents_retrieved = some 0 := by
  refine ⟨rfl, by decide, by decide, by decide, by decide⟩

/-- C2: along every state of the retrieval-iteration loop — the routed
initial state (iteration 1, any `maxIterations ≥ 1`) and everything
reachable from it by successful retrieval passes — the iteration counter
never exceeds `max_iterations`. -/
theorem c2_iteration_never_exceeds_max (cfg : Config) (f : RetrieveFn)
    (llm : LlmFn) (st : AgentState) (h : LoopStates cfg f llm st) :
    st.iteration ≤ st.max_iterations := by
  induction h with
  | init q hmax =>
    obtain ⟨h1, h2, -, -⟩ := routeState_core (initState q cfg)
    rw [h1, h2]
    simpa [initState] using hmax
  | step h hp ih => exact retrievalProcess_iteration_le hp ih

/-- C2 witness: the bound at the concrete routed initial state. -/
theorem c2_iteration_never_exceeds_max_witness :
    (routeState (initState "hello" cfg3)).iteration ≤
      (routeState (initState "hello" cfg3)).max_iterations :=
  c2_iteration_never_exceeds_max cfg3 emptyR llm0 _
    (LoopStates.init "hello" (by decide))

/-- C3 counterexample: with `MAX_ITERATIONS = 3`, `TOP_K_FINAL = 3` and a
collaborator returning one document, the first pass holds 1 < 3 documents
at the sufficiency evaluation with iteration 1 < 3; it increments the
counter and the edge does return to Retrieving — but the next pass does
not call the retrieval collaborator again: its outcome is identical under
a collaborator that always fails, so no retrieval call can have happened
(the held non-empty document list suppresses the ACT step). -/
theorem c3_no_reretrieval_cex :
    retrievalProcess cfg3 oneDocR llm0 c3st0 = Except.ok c3st1 ∧
    c3st0.iteration = 1 ∧ c3st0.max_iterations = 3 ∧
    c3st0.retrieved_docs = [] ∧
    cfg3.top_k_final = 3 ∧
    c3st1.retrieved_docs.length = 1 ∧
    c3st1.iteration = 2 ∧
    shouldContinue c3st1 = "retrieval" ∧
    retrievalProcess cfg3 failR llm0 c3st1 = retrievalProcess cfg3 oneDocR llm0 c3st1 := by
  refine ⟨by decide, by decide, by decide, by decide, by decide, by decide,
    by decide, by decide, by decide⟩

/-- C3 amended: when the sufficiency evaluation sees fewer than
`topKFinal` documents and `iteration < maxIterations`, the controller
increments the iteration counter and leaves the response unset; the edge
returns to Retrieving exactly when the incremented counter is still below
`maxIterations` (and no response is set), and on that next pass the
retrieval collaborator is consulted again only when the held document list
is empty — a non-empty but insufficient list makes the pass independent of
the retrieval collaborator. -/
theorem c3_insufficient_docs_amended (cfg : Config) (f : RetrieveFn)
    (llm : LlmFn) (st st' : AgentState)
    (hp : retrievalProcess cfg f llm st = Except.ok st')
    (hdocs : st'.retrieved_docs.length < cfg.top_k_final)
    (hit : st.iteration < st.max_iterations) :
    st'.iteration = st.iteration + 1 ∧
    st'.max_iterations = st.max_iterations ∧
    st'.response = st.response ∧
    (shouldContinue st' = "retrieval" ↔
      (pyTruthyStr st.response = false ∧ st.iteration + 1 < st.max_iterations)) ∧
    (st'.retrieved_docs ≠ [] → ∀ g : RetrieveFn,
      retrievalProcess cfg g llm st' = retrievalProcess cfg f llm st') := by
  unfold retrievalProcess at hp
  cases ha : actPhase cfg f (thinkPhase st) with
  | error e => rw [ha] at hp; cases hp
  | ok stM =>
    rw [ha] at hp
    obtain ⟨hIt, hMax, hResp, -, -, -⟩ := actPhase_fields ha
    obtain ⟨hDocs, -, -, -⟩ := observePhase_preserved hp
    have hIt' : stM.iteration = st.iteration := hIt
    have hMax' : stM.max_iterations = st.max_iterations := hMax
    have hResp' : stM.response = st.response := hResp
    have hdocsM : stM.retrieved_docs.length < cfg.top_k_final := by
      rw [← hDocs]; exact hdocs
    have hitM : stM.iteration < stM.max_iterations := by
      rw [hIt', hMax']; exact hit
    have hst' := observePhase_insufficient hp hdocsM hitM
    have hiter : st'.iteration = st.iteration + 1 := by
      rw [hst']; simp [hIt']
    have hmax2 : st'.max_iterations = st.max_iterations := by
      rw [hst']; exact hMax'
    have hresp2 : st'.response = st.response := by
      rw [hst']; exact hResp'
    refine ⟨hiter, hmax2, hresp2, ?_, ?_⟩
    · unfold shouldContinue
      rw [hresp2, hiter, hmax2]
      constructor
      · intro hsc
        by_cases hT : pyTruthyStr st.response = true
        · rw [if_pos hT] at hsc; exact absurd hsc (by decide)
        · rw [if_neg hT] at hsc
          by_cases hM : st.max_iterations ≤ st.iteration + 1
          · rw [if_pos hM] at hsc; exact absurd hsc (by decide)
          · exact ⟨(Bool.not_eq_true _) ▸ hT, by omega⟩
      · rintro ⟨hT, hM⟩
        rw [if_neg (by simp [hT]), if_neg (by omega)]
    · intro hne g
      exact retrievalProcess_skips_retrieval hne f g

/-- C3 amended witness: the one-document scenario instantiates every
hypothesis of the amended statement. -/
theorem c3_insufficient_docs_amended_witness :
    c3st1.iteration = c3st0.iteration + 1 ∧
    c3st1.response = c3st0.response ∧
    retrievalProcess cfg3 failR llm0 c3st1 = retrievalProcess cfg3 oneDocR llm0 c3st1 := by
  have h := c3_insufficient_docs_amended cfg3 oneDocR llm0 c3st0 c3st1
    (by decide) (by decide) (by decide)
  exact ⟨h.1, h.2.2.1, h.2.2.2.2 (by decide) failR⟩

/-- C4 counterexample: when the retrieval collaborator fails, the caller
receives the structured error dictionary, but the reasoning trace
accumulated before the failure (here non-empty after routing) is absent
from the result — `agent_thoughts` has no value — so the trace is
discarded, contrary to the claim. -/
theorem c4_trace_dropped_cex :
    (runQuery cfg3 failR llm0 qC).error = some "boom" ∧
    (runQuery cfg3 failR llm0 qC).response = some "Error processing query: boom" ∧
    (runQuery cfg3 failR llm0 qC).agent_thoughts = none ∧
    (routeState (initState qC cfg3)).agent_thoughts ≠ [] := by
  refine ⟨by decide, by decide, by decide, by decide⟩

/-- C4 amended: every collaborator failure is caught at the orchestration
boundary and returned as a structured failure result — the error string in
the `error` field, an `Error processing query: ...` response, empty
citations — and never rethrown; however the failure result omits the
reasoning trace accumulated up to the failure point (`agent_thoughts` is
absent), and `AgentState.error` itself is never populated. -/
theorem c4_failure_structured_result (cfg : Config) (f : RetrieveFn)
    (llm : LlmFn) (q e : String)
    (h : workflowRun cfg f llm q = Except.error e) :
    runQuery cfg f llm q =
      { query := q, response := some ("Error processing query: " ++ e),
        citations := [], query_type := none, documents_retrieved := none,
        iterations := none, agent_thoughts := none, error := some e } := by
  unfold runQuery
  rw [h]

/-- C4 amended witness: the failing collaborator produces exactly the
structured failure dictionary. -/
theorem c4_failure_structured_result_witness :
    runQuery cfg3 failR llm0 qC =
      { query := qC, response := some ("Error processing query: " ++ "boom"),
        citations := [], query_type := none, documents_retrieved := none,
        iterations := none, agent_thoughts := none, error := some "boom" } :=
  c4_failure_structured_result cfg3 failR llm0 qC "boom" (by decide)

/-- C8: a query whose lower-cased text contains a greeting keyword is
classified `greeting` with `requires_retrieval = false` — regardless of
any compliance or risk keywords it also contains, since the greeting check
runs first — and the whole query run is independent of both the retrieval
collaborator and the generation backend, so neither is ever called. -/
theorem c8_greeting_priority_no_retrieval (cfg : Config) (q : String)
    (h : keywordHit greetingKeywords (pyLower q) = true) :
    (routeState (initState q cfg)).query_type = some "greeting" ∧
    (routeState (initState q cfg)).requires_retrieval = false ∧
    ∀ (f g : RetrieveFn) (llm llm2 : LlmFn),
      runQuery cfg f llm q = runQuery cfg g llm2 q := by
  have hq : (initState q cfg).query = q := rfl
  have hqt : (routeState (initState q cfg)).query_type = some "greeting" := by
    unfold routeState
    rw [hq]
    simp [h]
  have hreq : (routeState (initState q cfg)).requires_retrieval = false := by
    unfold routeState
    rw [hq]
    simp [h]
  refine ⟨hqt, hreq, ?_⟩
  intro f g llm llm2
  unfold runQuery workflowRun shouldRetrieveEdge
  rw [hreq]
  simp

/-- C8 witness: a query holding both a greeting keyword (`hello`) and a
compliance keyword (`regulation`) is still a greeting, and the run is
identical under a succeeding and a failing retrieval collaborator. -/
theorem c8_greeting_priority_no_retrieval_witness :
    (routeState (initState qG cfg3)).query_type = some "greeting" ∧
    (routeState (initState qG cfg3)).requires_retrieval = false ∧
    runQuery cfg3 emptyR llm0 qG = runQuery cfg3 failR llm0 qG := by
  have h := c8_greeting_priority_no_retrieval cfg3 qG (by decide)
  exact ⟨h.1, h.2.1, h.2.2 emptyR failR llm0 llm0⟩

end FCRag
